import Mathlib

/-!
Verification of Mesa's surfaceless EGL platform
(`src/egl/drivers/dri2/platform_surfaceless.c`).

The C code is shallowly embedded: each C function becomes an executable Lean
definition over explicit state records.  Calls into external collaborators
(the loader, the DRI screen layer, `malloc`) are modelled as oracle inputs
that the definitions consume, so that every external outcome (success or
failure) is quantified over.  Ghost fields (`allocCalled`, `openCalls`,
`openFds`, `screenCalls`) record the externally observable calls the C code
makes, so that claims about "no handle opened" or "screen creation attempted
with name N" can be stated.
-/

namespace Surfaceless

/-- `__DRI_IMAGE_BUFFER_FRONT` from dri_interface.h: bit 0. -/
def DRI_IMAGE_BUFFER_FRONT : Nat := 1

/-- `__DRI_IMAGE_BUFFER_BACK` from dri_interface.h: bit 1. -/
def DRI_IMAGE_BUFFER_BACK : Nat := 2

/-- The `struct __DRIimageList` the loader fills in for the driver.
Images are modelled as opaque `Nat` handles. -/
structure DRIimageList where
  image_mask : Nat
  front : Option Nat
  back : Option Nat
deriving DecidableEq, Repr

/-- Result of one `surfaceless_image_get_buffers` call:
the C return value (1 = success, 0 = failure), the filled `__DRIimageList`,
the surface's `front` field after the call, and a ghost flag recording
whether `surfaceless_alloc_image` was invoked. -/
structure GetBuffersOut where
  ret : Nat
  buffers : DRIimageList
  front : Option Nat
  allocCalled : Bool
deriving DecidableEq, Repr

/-- Shallow embedding of `surfaceless_image_get_buffers`.
`allocResult` is the oracle outcome of `surfaceless_alloc_image`
(`none` models `dri_create_image` returning NULL); `front0` is the
surface's cached `dri2_surf->front` on entry; `buffer_mask` the
requested mask.  The C first zeroes the out-struct, then serves only the
`__DRI_IMAGE_BUFFER_FRONT` bit, allocating lazily. -/
def surfaceless_image_get_buffers (allocResult : Option Nat) (front0 : Option Nat)
    (buffer_mask : Nat) : GetBuffersOut :=
  let bufs : DRIimageList := ⟨0, none, none⟩
  if buffer_mask &&& DRI_IMAGE_BUFFER_FRONT ≠ 0 then
    match front0 with
    | none =>
      match allocResult with
      | none => ⟨0, bufs, none, true⟩
      | some img =>
        ⟨1, ⟨bufs.image_mask ||| DRI_IMAGE_BUFFER_FRONT, some img, bufs.back⟩,
          some img, true⟩
    | some img =>
      ⟨1, ⟨bufs.image_mask ||| DRI_IMAGE_BUFFER_FRONT, some img, bufs.back⟩,
        some img, false⟩
  else
    ⟨1, bufs, front0, false⟩

/-! ## Surface creation (`dri2_surfaceless_create_surface`) -/

/-- EGL error codes set via `_eglError` on the paths of
`dri2_surfaceless_create_surface`. -/
inductive EglErr where
  | badAlloc   -- EGL_BAD_ALLOC
  | badMatch   -- EGL_BAD_MATCH
deriving DecidableEq, Repr

/-- Oracle for the external collaborators of
`dri2_surfaceless_create_surface`: `calloc`, `dri2_init_surface`,
`dri2_get_dri_config` (the lookup of a DRI config matching the requested
surface type / colorspace; `none` models NULL),
`dri2_image_format_for_pbuffer_config` (`0` models `PIPE_FORMAT_NONE`),
and `dri2_create_drawable`. -/
structure SurfOracle where
  callocOk : Bool
  initSurfaceOk : Bool
  driConfig : Option Nat
  pbufferFormat : Nat
  createDrawableOk : Bool
deriving DecidableEq, Repr

/-- A successfully created surface: its validated DRI config and pixel
format (`visual`), with the cached front image still unallocated. -/
structure Surf where
  config : Nat
  visual : Nat
  front : Option Nat
deriving DecidableEq, Repr

/-- Result of `dri2_surfaceless_create_surface`: the returned surface
(`none` = NULL), the EGL error set (if any), whether the partially built
surface object was freed on the cleanup path, and a ghost flag recording
whether `dri2_create_drawable` was called. -/
structure CreateSurfOut where
  surface : Option Surf
  err : Option EglErr
  freed : Bool
  drawableCalled : Bool
deriving DecidableEq, Repr

/-- Shallow embedding of `dri2_surfaceless_create_surface`.  Follows the C
control flow: calloc, `dri2_init_surface`, DRI-config lookup (NULL result
sets `EGL_BAD_MATCH`), pbuffer pixel-format resolution
(`PIPE_FORMAT_NONE` rejects), drawable creation; every failure after the
calloc frees the partially built surface and returns NULL. -/
def dri2_surfaceless_create_surface (o : SurfOracle) : CreateSurfOut :=
  if ¬ o.callocOk then
    ⟨none, some .badAlloc, false, false⟩
  else if ¬ o.initSurfaceOk then
    ⟨none, none, true, false⟩
  else
    match o.driConfig with
    | none => ⟨none, some .badMatch, true, false⟩
    | some cfg =>
      if o.pbufferFormat = 0 then
        ⟨none, none, true, false⟩
      else if ¬ o.createDrawableOk then
        ⟨none, none, true, true⟩
      else
        ⟨some ⟨cfg, o.pbufferFormat, none⟩, none, false, true⟩

/-- Shallow embedding of `dri2_surfaceless_create_pbuffer_surface`, which
just delegates with `EGL_PBUFFER_BIT`. -/
def dri2_surfaceless_create_pbuffer_surface (o : SurfOracle) : CreateSurfOut :=
  dri2_surfaceless_create_surface o

/-! ## Device probing (`surfaceless_probe_device`) -/

/-- The fixed loader-extension tables a display can be bound to. -/
inductive LoaderExt where
  | kopperExts       -- kopper_loader_extensions
  | kopperMetalExts  -- kopper_metal_loader_extensions (macOS Metal build)
  | swrastExts       -- swrast_loader_extensions
  | imageExts        -- image_loader_extensions
  | noExts           -- loader_extensions still NULL
deriving DecidableEq, Repr

/-- The mutable fields of `struct dri2_egl_display` that
`surfaceless_probe_device` / `surfaceless_probe_device_sw` touch.
File descriptors are `Int` with `-1` = unopened; DRI screens are
`Nat` identities (`none` = NULL), the identity distinguishing the
render-GPU screen from a separately created display-GPU screen. -/
structure Dpy where
  fd_render_gpu : Int
  fd_display_gpu : Int
  driver_name : Option String
  device_name : Option String
  is_render_node : Bool
  kopper : Bool
  loader_extensions : LoaderExt
  dri_screen_render_gpu : Option Nat
  dri_screen_display_gpu : Option Nat
  own_dri_screen : Bool
deriving DecidableEq, Repr

/-- One entry of the global `_eglGlobal.DeviceList`, viewed through the
checks the probe loop performs: its identity (pointer equality is
modelled as `Nat` identity), `_eglDeviceSupports(dev, _EGL_DEVICE_DRM)`,
and the `available_nodes` bits for `DRM_NODE_PRIMARY` and
`DRM_NODE_RENDER`. -/
structure Candidate where
  id : Nat
  supportsDrm : Bool
  hasPrimary : Bool
  hasRender : Bool
deriving DecidableEq, Repr

/-- Per-candidate oracle for the external calls in the probe loop body:
`loader_open_device` (`none` = failed open, `some fd` = the new fd),
`loader_get_user_preferred_fd` (`none` = same GPU preferred, i.e. the
display fd is set to the render fd; `some f` = a different render fd `f`
was opened and the original fd becomes the display fd),
`loader_get_device_name_for_fd`, `drmGetNodeTypeFromFd`,
`loader_get_driver_for_fd`, the `strdup("kms_swrast")` of the
force-software override (`strdupOk = false` models strdup returning
NULL, leaving the driver name NULL), `dri2_detect_swrast_kopper`,
`dri2_create_screen`, and the created screen's `caps.graphics`. -/
structure Oracle where
  openFd : Option Int
  preferredFd : Option Int
  deviceName : Option String
  isRenderNode : Bool
  driverForFd : Option String
  strdupOk : Bool
  kopper : Bool
  createScreenOk : Bool
  graphics : Bool
deriving DecidableEq, Repr

/-- A well-formed oracle never reports a "preferred" render fd numerically
equal to the fd it is replacing: the original fd is still open when the
loader opens the preferred device, so the kernel hands out a distinct
descriptor. -/
def Oracle.wf (o : Oracle) : Bool :=
  match o.openFd, o.preferredFd with
  | some fd, some f => f ≠ fd
  | _, _ => true

/-- Probe-time state: the display fields, `disp->Device` (the claimed
device identity), and ghost instrumentation — the multiset of device-node
fds currently open (as a list, opens cons, closes erase), the number of
`loader_open_device` calls, and the trace of `dri2_create_screen` calls
with the driver name in effect at each call (most recent first). -/
structure PState where
  dpy : Dpy
  dispDevice : Option Nat
  openFds : List Int
  openCalls : Nat
  screenCalls : List String
deriving DecidableEq, Repr

/-- The open-fd multiset after the `retry:` label's `close` calls: the
display fd is closed only when distinct from the render fd, then the
render fd is closed. -/
def rollFds (s : PState) : List Int :=
  (if s.dpy.fd_display_gpu ≠ s.dpy.fd_render_gpu
   then s.openFds.erase s.dpy.fd_display_gpu
   else s.openFds).erase s.dpy.fd_render_gpu

/-- The `retry:` label of `surfaceless_probe_device`: free the driver
name, close the display fd when distinct from the render fd, close the
render fd, reset both fds to `-1`. -/
def retryRollback (s : PState) : PState :=
  { s with
    dpy := { s.dpy with
             driver_name := none
             fd_display_gpu := -1
             fd_render_gpu := -1 },
    openFds := rollFds s }

/-- The `HAVE_WAYLAND_PLATFORM` block of the probe loop body:
`loader_get_user_preferred_fd` possibly swaps in a preferred render fd
keeping the original as display fd; when the two fds differ, the render
node's device name is resolved (failure is a `goto retry`, signalled by
the `false` flag); finally `is_render_node` is recomputed. -/
def waylandStep (o : Oracle) (s : PState) : PState × Bool :=
  let s1 :=
    match o.preferredFd with
    | none =>
      { s with dpy := { s.dpy with fd_display_gpu := s.dpy.fd_render_gpu } }
    | some f =>
      { s with
        dpy := { s.dpy with
                 fd_render_gpu := f
                 fd_display_gpu := s.dpy.fd_render_gpu },
        openFds := f :: s.openFds }
  if s1.dpy.fd_render_gpu ≠ s1.dpy.fd_display_gpu then
    let s2 := { s1 with dpy := { s1.dpy with device_name := o.deviceName } }
    match o.deviceName with
    | none => (s2, false)
    | some _ =>
      ({ s2 with dpy := { s2.dpy with is_render_node := o.isRenderNode } },
        true)
  else
    ({ s1 with dpy := { s1.dpy with is_render_node := o.isRenderNode } },
      true)

/-- The tail of the probe loop body once a driver name `nm` is in hand
(the `if (dri2_dpy->driver_name)` block): kopper detection, extension
table selection, `dri2_create_screen`, the graphics-capability check with
its screen teardown, and the `break` on success. -/
def screenPhase (swrast : Bool) (o : Oracle) (nm : String) (s3 : PState) :
    PState × Bool :=
  let s4 :=
    { s3 with
      dpy := { s3.dpy with
        kopper := o.kopper
        loader_extensions :=
          if o.kopper then LoaderExt.kopperExts
          else if swrast then LoaderExt.swrastExts
          else LoaderExt.imageExts },
      screenCalls := nm :: s3.screenCalls }
  if ¬ o.createScreenOk then (retryRollback s4, false)
  else
    let s5 :=
      { s4 with dpy := { s4.dpy with
          dri_screen_render_gpu := some 0,
          dri_screen_display_gpu :=
            if s4.dpy.fd_display_gpu = s4.dpy.fd_render_gpu
            then some 0 else some 1,
          own_dri_screen := true } }
    if ¬ o.graphics then
      let s6 :=
        { s5 with dpy := { s5.dpy with
            dri_screen_display_gpu :=
              if s5.dpy.dri_screen_display_gpu ≠
                 s5.dpy.dri_screen_render_gpu
              then none else s5.dpy.dri_screen_display_gpu,
            dri_screen_render_gpu := none,
            own_dri_screen := false } }
      (retryRollback s6, false)
    else (s5, true)

/-- The probe loop body from `disp->Device = dev_list` on: the kms_swrast
driver-name override under `swrast` (the override's
`strdup("kms_swrast")` can fail, assigning NULL), the
`if (dri2_dpy->driver_name)` test, and the screen phase.  `s2` is the
state with the device identity already bound. -/
def afterBind (swrast : Bool) (o : Oracle) (s2 : PState) : PState × Bool :=
  let driver_name := o.driverForFd
  let s3 :=
    if swrast then
      if driver_name = some "vgem" ∨ driver_name = some "virtio_gpu"
      then { s2 with dpy := { s2.dpy with
               driver_name := if o.strdupOk then some "kms_swrast"
                              else none } }
      else s2
    else { s2 with dpy := { s2.dpy with driver_name := driver_name } }
  match s3.dpy.driver_name with
  | none => (retryRollback s3, false)
  | some nm => screenPhase swrast o nm s3

/-- One iteration of the probe loop for candidate `c` with oracle `o`.
Returns the state after the iteration and `true` iff the loop `break`s
(candidate accepted).  `hasDevAttrib` models
`_eglHasAttrib(disp, EGL_DEVICE_EXT)`; `swrast` selects
`DRM_NODE_PRIMARY` over `DRM_NODE_RENDER` and the kms_swrast driver
override, exactly as in the C. -/
def probeStep (hasDevAttrib swrast : Bool) (c : Candidate) (o : Oracle)
    (s : PState) : PState × Bool :=
  if ¬ c.supportsDrm then (s, false)
  else if hasDevAttrib ∧ s.dispDevice ≠ some c.id then (s, false)
  else if ¬ (if swrast then c.hasPrimary else c.hasRender) then (s, false)
  else
    let s0 := { s with openCalls := s.openCalls + 1 }
    match o.openFd with
    | none => (s0, false)
    | some fd =>
      let s1 := { s0 with
                  dpy := { s0.dpy with fd_render_gpu := fd },
                  openFds := fd :: s0.openFds }
      let w := waylandStep o s1
      if ¬ w.2 then (retryRollback w.1, false)
      else afterBind swrast o { w.1 with dispDevice := some c.id }

/-- The probe loop: iterate candidates until one `break`s. -/
def probeLoop (hasDevAttrib swrast : Bool) :
    List (Candidate × Oracle) → PState → PState × Bool
  | [], s => (s, false)
  | (c, o) :: rest, s =>
    let r := probeStep hasDevAttrib swrast c o s
    if r.2 then (r.1, true) else probeLoop hasDevAttrib swrast rest r.1

/-- Shallow embedding of `surfaceless_probe_device`: returns `false` iff
the device list is exhausted without a `break`.  The `zink` parameter is
accepted and unused, as in the C. -/
def surfaceless_probe_device (hasDevAttrib swrast zink : Bool)
    (cands : List (Candidate × Oracle)) (s : PState) : PState × Bool :=
  probeLoop hasDevAttrib swrast cands s

/-! ## Software probe and display initialization -/

/-- Oracle for `surfaceless_probe_device_sw`: the software device found by
`_eglFindDevice`, whether `strdup` of the driver name succeeds,
`dri2_detect_swrast_kopper`, and `dri2_create_screen`. -/
structure SwOracle where
  foundDevice : Nat
  strdupOk : Bool
  kopper : Bool
  createScreenOk : Bool
deriving DecidableEq, Repr

/-- Shallow embedding of `surfaceless_probe_device_sw`.  `apple` and
`metal` select the Metal kopper loader-extension table as in the
`__APPLE__ && VK_USE_PLATFORM_METAL_EXT` build. -/
def surfaceless_probe_device_sw (apple metal hasDevAttrib zink : Bool)
    (o : SwOracle) (s : PState) : PState × Bool :=
  let s0 := { s with dpy := { s.dpy with fd_render_gpu := -1 } }
  if hasDevAttrib ∧ s0.dispDevice ≠ some o.foundDevice then (s0, false)
  else
    let s1 := { s0 with dispDevice := some o.foundDevice }
    if ¬ o.strdupOk then (s1, false)
    else
      let nm := if zink then "zink" else "swrast"
      let s2 :=
        { s1 with
          dpy := { s1.dpy with
            driver_name := some nm,
            kopper := o.kopper,
            loader_extensions :=
              if o.kopper then
                (if apple ∧ metal then LoaderExt.kopperMetalExts
                 else LoaderExt.kopperExts)
              else LoaderExt.swrastExts,
            fd_display_gpu := -1 },
          screenCalls := nm :: s1.screenCalls }
      if ¬ o.createScreenOk then
        ({ s2 with dpy := { s2.dpy with driver_name := none } }, false)
      else (s2, true)

/-- Observable milestones of `dri2_initialize_surfaceless`, in execution
order: the two probes, `dri2_setup_screen`,
`dri2_add_pbuffer_configs_for_visuals`, and the final vtbl store. -/
inductive InitEvent where
  | probeHw
  | probeSw
  | setupScreen
  | addConfigs
  | assignVtbl
deriving DecidableEq, Repr

/-- Which vtbl constant is stored into `dri2_dpy->vtbl`. -/
inductive VtblKind where
  | surfacelessVtbl  -- dri2_surfaceless_display_vtbl
  | metalVtbl        -- dri2_surfaceless_metal_display_vtbl
deriving DecidableEq, Repr

/-- Result of `dri2_initialize_surfaceless`: the EGL boolean, the vtbl
field after the call (`none` = never assigned), the event trace, and the
final probe state. -/
structure InitOut where
  success : Bool
  vtbl : Option VtblKind
  trace : List InitEvent
  state : PState
deriving DecidableEq, Repr

/-- Shallow embedding of `dri2_initialize_surfaceless`.  Hardware probe
first; on failure, software fallback when `ForceSoftware` is set or on
macOS (`apple`); on total failure, return with the vtbl untouched.
Otherwise `dri2_setup_screen`, the Wayland device-name fetch
(`devName` oracle), config setup, and only then the vtbl store, choosing
the Metal vtbl on the Metal build when kopper is active. -/
def dri2_initialize_surfaceless (apple metal hasDevAttrib forceSoftware
    zink : Bool) (cands : List (Candidate × Oracle)) (swo : SwOracle)
    (devName : Option String) (s : PState) : InitOut :=
  let r := surfaceless_probe_device hasDevAttrib forceSoftware zink cands s
  let t := [InitEvent.probeHw]
  let afterFallback :=
    if ¬ r.2 ∧ (forceSoftware ∨ apple) then
      let rsw := surfaceless_probe_device_sw apple metal hasDevAttrib zink
        swo r.1
      (rsw.1, rsw.2, t ++ [InitEvent.probeSw])
    else (r.1, r.2, t)
  let s2 := afterFallback.1
  let loaded := afterFallback.2.1
  let t2 := afterFallback.2.2
  if ¬ loaded then ⟨false, none, t2, s2⟩
  else
    let t3 := t2 ++ [InitEvent.setupScreen]
    let s3 := { s2 with dpy := { s2.dpy with device_name := devName } }
    let t4 := t3 ++ [InitEvent.addConfigs]
    let v :=
      if apple ∧ metal ∧ s3.dpy.kopper then VtblKind.metalVtbl
      else VtblKind.surfacelessVtbl
    ⟨true, some v, t4 ++ [InitEvent.assignVtbl], s3⟩

/-! ## Helper lemmas -/

/-- The branch condition of `get_buffers` only reads bit 0 of the mask,
so setting bit 1 (the back role) cannot change it. -/
theorem or_back_and_front (m : Nat) :
    (m ||| DRI_IMAGE_BUFFER_BACK) &&& DRI_IMAGE_BUFFER_FRONT =
      m &&& DRI_IMAGE_BUFFER_FRONT := by
  apply Nat.eq_of_testBit_eq
  intro i
  simp only [DRI_IMAGE_BUFFER_BACK, DRI_IMAGE_BUFFER_FRONT,
    Nat.testBit_and, Nat.testBit_or]
  cases i with
  | zero => simp
  | succ n =>
    have h1 : Nat.testBit 1 (n + 1) = false := by
      simp [Nat.testBit_succ]
    simp [h1]

/-- A cached front buffer is returned as-is on any front-requesting call:
no allocation, same handle, success. -/
theorem get_buffers_cached (a : Option Nat) (i : Nat) (m : Nat)
    (h : m &&& DRI_IMAGE_BUFFER_FRONT ≠ 0) :
    surfaceless_image_get_buffers a (some i) m =
      ⟨1, ⟨1, some i, none⟩, some i, false⟩ := by
  unfold surfaceless_image_get_buffers
  simp only [DRI_IMAGE_BUFFER_FRONT] at h
  rw [Nat.and_one_is_mod] at h
  simp [h, DRI_IMAGE_BUFFER_FRONT, Nat.and_one_is_mod]

/-! ## Claim theorems -/

/-- C1, counterexample: the claim "a get_buffers call whose requested mask
includes the back role returns the same buffer set as a front-role
request" is false as stated: a request for only the back role
(mask = `__DRI_IMAGE_BUFFER_BACK`) returns an empty buffer set, while the
front-role request returns the front image, here allocated as image 7. -/
theorem C1_counterexample :
    (surfaceless_image_get_buffers (some 7) none DRI_IMAGE_BUFFER_BACK).buffers ≠
    (surfaceless_image_get_buffers (some 7) none DRI_IMAGE_BUFFER_FRONT).buffers := by
  decide

/-- C1 (amended): the back-buffer bit of the requested mask is ignored by
`surfaceless_image_get_buffers`: adding `__DRI_IMAGE_BUFFER_BACK` to any
request leaves the entire outcome (return value, buffer set, cached
front, allocation behaviour) unchanged, so the back role is never served
as a distinct buffer — only the single front buffer is ever returned, and
a back-only request yields no buffer at all rather than the front one. -/
theorem C1_back_bit_ignored (a f0 : Option Nat) (m : Nat) :
    surfaceless_image_get_buffers a f0 (m ||| DRI_IMAGE_BUFFER_BACK) =
      surfaceless_image_get_buffers a f0 m := by
  unfold surfaceless_image_get_buffers
  rw [or_back_and_front]

/-- C2: two successive front-requesting `get_buffers` calls with no
destroy in between return the identical handle: if the first call leaves
front image `i` cached, it also returned `i`, and the second call returns
`i` again with no allocation attempted, whatever its allocation oracle. -/
theorem C2_idempotent_lazy_alloc (a1 a2 f0 : Option Nat) (m1 m2 : Nat)
    (i : Nat)
    (h1 : m1 &&& DRI_IMAGE_BUFFER_FRONT ≠ 0)
    (h2 : m2 &&& DRI_IMAGE_BUFFER_FRONT ≠ 0)
    (hfst : (surfaceless_image_get_buffers a1 f0 m1).front = some i) :
    (surfaceless_image_get_buffers a1 f0 m1).buffers.front = some i ∧
    surfaceless_image_get_buffers a2
        (surfaceless_image_get_buffers a1 f0 m1).front m2 =
      ⟨1, ⟨1, some i, none⟩, some i, false⟩ := by
  refine ⟨?_, by rw [hfst]; exact get_buffers_cached a2 i m2 h2⟩
  unfold surfaceless_image_get_buffers at hfst ⊢
  rcases f0 with _ | j
  · rcases a1 with _ | j <;> simp [h1] at hfst ⊢ <;> simp [hfst]
  · simp [h1] at hfst ⊢
    simp [hfst]

/-- C2 witness: first call allocates image 5, second call returns it. -/
theorem C2_witness :
    (1 : Nat) &&& DRI_IMAGE_BUFFER_FRONT ≠ 0 ∧
    (surfaceless_image_get_buffers (some 5) none 1).front = some 5 ∧
    ((surfaceless_image_get_buffers (some 5) none 1).buffers.front = some 5 ∧
     surfaceless_image_get_buffers none
         (surfaceless_image_get_buffers (some 5) none 1).front 1 =
       ⟨1, ⟨1, some 5, none⟩, some 5, false⟩) :=
  ⟨by decide, by decide,
    C2_idempotent_lazy_alloc (some 5) none none 1 1 5 (by decide) (by decide)
      (by decide)⟩

/-- C6: when the front image is not yet allocated and the underlying
image allocation fails, `get_buffers` returns 0 with an empty buffer set
and leaves the cached front NULL; a later call whose allocation succeeds
with image `i` then allocates and returns `i` (the failure is
retryable). -/
theorem C6_alloc_failure_retryable (m : Nat)
    (h : m &&& DRI_IMAGE_BUFFER_FRONT ≠ 0) :
    surfaceless_image_get_buffers none none m =
      ⟨0, ⟨0, none, none⟩, none, true⟩ ∧
    ∀ i : Nat, surfaceless_image_get_buffers (some i) none m =
      ⟨1, ⟨1, some i, none⟩, some i, true⟩ := by
  unfold surfaceless_image_get_buffers
  simp only [DRI_IMAGE_BUFFER_FRONT] at h
  rw [Nat.and_one_is_mod] at h
  simp [h, DRI_IMAGE_BUFFER_FRONT, Nat.and_one_is_mod]

/-- C6 witness at mask 1 and retry image 9. -/
theorem C6_witness :
    (1 : Nat) &&& DRI_IMAGE_BUFFER_FRONT ≠ 0 ∧
    (surfaceless_image_get_buffers none none 1 =
      ⟨0, ⟨0, none, none⟩, none, true⟩ ∧
     surfaceless_image_get_buffers (some 9) none 1 =
      ⟨1, ⟨1, some 9, none⟩, some 9, true⟩) :=
  ⟨by decide,
    (C6_alloc_failure_retryable 1 (by decide)).1,
    (C6_alloc_failure_retryable 1 (by decide)).2 9⟩

/-- C10: no `get_buffers` call ever returns a back buffer — the back slot
is NULL and the back bit is clear in the returned image mask — and a call
whose mask does not request the front role succeeds with an empty buffer
set, touching nothing and allocating nothing. -/
theorem C10_no_back_buffer (a f0 : Option Nat) (m : Nat) :
    (surfaceless_image_get_buffers a f0 m).buffers.back = none ∧
    (surfaceless_image_get_buffers a f0 m).buffers.image_mask &&&
      DRI_IMAGE_BUFFER_BACK = 0 ∧
    (m &&& DRI_IMAGE_BUFFER_FRONT = 0 →
      surfaceless_image_get_buffers a f0 m = ⟨1, ⟨0, none, none⟩, f0, false⟩) := by
  unfold surfaceless_image_get_buffers
  rcases f0 with _ | j
  · rcases a with _ | j <;>
      by_cases h : m &&& DRI_IMAGE_BUFFER_FRONT ≠ 0 <;>
        simp [h, DRI_IMAGE_BUFFER_FRONT, DRI_IMAGE_BUFFER_BACK] at h ⊢ <;>
          simp [h]
  · by_cases h : m &&& DRI_IMAGE_BUFFER_FRONT ≠ 0 <;>
      simp [h, DRI_IMAGE_BUFFER_FRONT, DRI_IMAGE_BUFFER_BACK] at h ⊢ <;>
        simp [h]

/-- C10 witness: a back-only request (mask 2) on a fresh surface. -/
theorem C10_witness :
    ((surfaceless_image_get_buffers (some 4) none 2).buffers.back = none ∧
     (surfaceless_image_get_buffers (some 4) none 2).buffers.image_mask &&&
       DRI_IMAGE_BUFFER_BACK = 0 ∧
     surfaceless_image_get_buffers (some 4) none 2 =
       ⟨1, ⟨0, none, none⟩, none, false⟩) :=
  ⟨(C10_no_back_buffer (some 4) none 2).1,
   (C10_no_back_buffer (some 4) none 2).2.1,
   (C10_no_back_buffer (some 4) none 2).2.2 (by decide)⟩

/-- C7: a pbuffer-surface creation whose requested pixel format matches
no supported configuration (the DRI-config lookup returns NULL) fails
with `EGL_BAD_MATCH`, frees the partially built surface, and never calls
`dri2_create_drawable`. -/
theorem C7_config_mismatch (o : SurfOracle)
    (hc : o.callocOk = true) (hi : o.initSurfaceOk = true)
    (hcfg : o.driConfig = none) :
    dri2_surfaceless_create_surface o =
      ⟨none, some EglErr.badMatch, true, false⟩ := by
  unfold dri2_surfaceless_create_surface
  simp [hc, hi, hcfg]

/-- C7 witness: a concrete oracle whose config lookup fails. -/
theorem C7_witness :
    dri2_surfaceless_create_surface ⟨true, true, none, 1, true⟩ =
      ⟨none, some EglErr.badMatch, true, false⟩ :=
  C7_config_mismatch ⟨true, true, none, 1, true⟩ rfl rfl rfl

/-- A candidate failing one of the three structural checks (device class,
pinned-device filter, node category) is skipped with no state change. -/
theorem probeStep_structural_skip (hasDevAttrib swrast : Bool)
    (c : Candidate) (o : Oracle) (s : PState)
    (h : c.supportsDrm = false ∨
         (hasDevAttrib = true ∧ s.dispDevice ≠ some c.id) ∨
         (if swrast then c.hasPrimary else c.hasRender) = false) :
    probeStep hasDevAttrib swrast c o s = (s, false) := by
  unfold probeStep
  by_cases h1 : c.supportsDrm
  · by_cases h2 : hasDevAttrib = true ∧ s.dispDevice ≠ some c.id
    · simp [h1, h2]
    · have h3 : (if swrast then c.hasPrimary else c.hasRender) = false := by
        rcases h with h | h | h
        · rw [h1] at h; exact absurd h (by simp)
        · exact absurd h h2
        · exact h
      simp [h1, h2, h3]
  · simp [h1]

/-- C5: if every candidate in the device list fails one of the structural
checks — device class unsupported, pinned-device filter mismatch, or the
required node category absent — the hardware probe returns `false`, the
state is untouched, and `loader_open_device` is never called (the
open-call counter is unchanged, so no handle is ever opened). -/
theorem C5_no_candidate_no_open (hasDevAttrib swrast zink : Bool)
    (cands : List (Candidate × Oracle)) (s : PState)
    (h : ∀ co ∈ cands,
      co.1.supportsDrm = false ∨
      (hasDevAttrib = true ∧ s.dispDevice ≠ some co.1.id) ∨
      (if swrast then co.1.hasPrimary else co.1.hasRender) = false) :
    surfaceless_probe_device hasDevAttrib swrast zink cands s = (s, false) ∧
    (surfaceless_probe_device hasDevAttrib swrast zink cands s).1.openCalls
      = s.openCalls := by
  have main : probeLoop hasDevAttrib swrast cands s = (s, false) := by
    induction cands with
    | nil => rfl
    | cons co rest ih =>
      obtain ⟨c, o⟩ := co
      have hstep := probeStep_structural_skip hasDevAttrib swrast c o s
        (h (c, o) (List.mem_cons_self _ _))
      simp only [probeLoop, hstep]
      simpa using ih (fun co hm => h co (by simp [hm]))
  unfold surfaceless_probe_device
  exact ⟨main, by rw [main]⟩

/-- C5 witness: one candidate lacking DRM-class support is skipped;
probing fails without any open call. -/
theorem C5_witness :
    surfaceless_probe_device false false false
        [(⟨0, false, true, true⟩,
          ⟨some 3, none, none, false, some "i915", true, false, true, true⟩)]
        ⟨⟨-1, -1, none, none, false, false, .noExts, none, none, false⟩,
          none, [], 0, []⟩ =
      (⟨⟨-1, -1, none, none, false, false, .noExts, none, none, false⟩,
        none, [], 0, []⟩, false) ∧
    (surfaceless_probe_device false false false
        [(⟨0, false, true, true⟩,
          ⟨some 3, none, none, false, some "i915", true, false, true, true⟩)]
        ⟨⟨-1, -1, none, none, false, false, .noExts, none, none, false⟩,
          none, [], 0, []⟩).1.openCalls = 0 :=
  C5_no_candidate_no_open false false false _ _ (by decide)

/-- The rollback never touches the claimed device identity, the open-call
counter, or the screen-call trace. -/
theorem retryRollback_ghost (s : PState) :
    (retryRollback s).dispDevice = s.dispDevice ∧
    (retryRollback s).openCalls = s.openCalls ∧
    (retryRollback s).screenCalls = s.screenCalls := by
  simp [retryRollback]

/-- The wayland block succeeds when the loader prefers the same GPU or the
device name resolves. -/
theorem waylandStep_ok (o : Oracle) (s1 : PState)
    (hwl : o.preferredFd = none ∨ (∃ dn, o.deviceName = some dn)) :
    (waylandStep o s1).2 = true := by
  unfold waylandStep
  rcases hwl with hpref | ⟨dn, hdn⟩
  · simp [hpref]
  · rcases hpref : o.preferredFd with _ | f
    · simp
    · simp only [hdn]
      by_cases hf : f = s1.dpy.fd_render_gpu <;> simp [hf, hdn]

/-- The wayland block never touches the device identity, the driver name,
or the ghost call traces. -/
theorem waylandStep_ghost (o : Oracle) (s1 : PState) :
    (waylandStep o s1).1.dispDevice = s1.dispDevice ∧
    (waylandStep o s1).1.dpy.driver_name = s1.dpy.driver_name ∧
    (waylandStep o s1).1.screenCalls = s1.screenCalls ∧
    (waylandStep o s1).1.openCalls = s1.openCalls := by
  unfold waylandStep
  rcases hpref : o.preferredFd with _ | f
  · simp
  · rcases hdn : o.deviceName with _ | dn <;>
      by_cases hf : f = s1.dpy.fd_render_gpu <;> simp [hf, hdn]

/-- Fd bookkeeping of the wayland block when the loader prefers the same
GPU: the display fd aliases the render fd and nothing new is opened. -/
theorem waylandStep_fds_none (o : Oracle) (s1 : PState)
    (hpref : o.preferredFd = none) :
    (waylandStep o s1).1.dpy.fd_render_gpu = s1.dpy.fd_render_gpu ∧
    (waylandStep o s1).1.dpy.fd_display_gpu = s1.dpy.fd_render_gpu ∧
    (waylandStep o s1).1.openFds = s1.openFds := by
  unfold waylandStep
  simp [hpref]

/-- Fd bookkeeping of the wayland block when the loader opens a preferred
render fd `f`: the original fd becomes the display fd and `f` joins the
open set. -/
theorem waylandStep_fds_some (o : Oracle) (s1 : PState) (f : Int)
    (hpref : o.preferredFd = some f) :
    (waylandStep o s1).1.dpy.fd_render_gpu = f ∧
    (waylandStep o s1).1.dpy.fd_display_gpu = s1.dpy.fd_render_gpu ∧
    (waylandStep o s1).1.openFds = f :: s1.openFds := by
  unfold waylandStep
  rcases hdn : o.deviceName with _ | dn <;>
    by_cases hf : f = s1.dpy.fd_render_gpu <;> simp [hpref, hf, hdn]

/-- `screenPhase` keeps the device identity. -/
theorem screenPhase_dispDevice (swrast : Bool) (o : Oracle) (nm : String)
    (s3 : PState) :
    (screenPhase swrast o nm s3).1.dispDevice = s3.dispDevice := by
  unfold screenPhase
  by_cases hc : o.createScreenOk
  · by_cases hg : o.graphics
    · simp [hc, hg]
    · simp [hc, hg, retryRollback]
  · simp [hc, retryRollback]

/-- `screenPhase` records exactly one `dri2_create_screen` call, with the
driver name it was entered with. -/
theorem screenPhase_screenCalls (swrast : Bool) (o : Oracle) (nm : String)
    (s3 : PState) :
    (screenPhase swrast o nm s3).1.screenCalls = nm :: s3.screenCalls := by
  unfold screenPhase
  by_cases hc : o.createScreenOk
  · by_cases hg : o.graphics
    · simp [hc, hg]
    · simp [hc, hg, retryRollback]
  · simp [hc, retryRollback]

/-- A rejected `screenPhase` ends in the rollback: driver name freed, both
fds reset, and the fds opened for this candidate closed (the rollback's
fd arithmetic only depends on the fd fields and open set at entry, which
`screenPhase` does not modify before rolling back). -/
theorem screenPhase_rejected (swrast : Bool) (o : Oracle) (nm : String)
    (s3 : PState) (h : (screenPhase swrast o nm s3).2 = false) :
    (screenPhase swrast o nm s3).1.dpy.driver_name = none ∧
    (screenPhase swrast o nm s3).1.dpy.fd_render_gpu = -1 ∧
    (screenPhase swrast o nm s3).1.dpy.fd_display_gpu = -1 ∧
    (screenPhase swrast o nm s3).1.openFds = rollFds s3 := by
  unfold screenPhase at h ⊢
  by_cases hc : o.createScreenOk
  · by_cases hg : o.graphics
    · simp [hc, hg] at h
    · simp [hc, hg, retryRollback, rollFds]
  · simp [hc, retryRollback, rollFds]

/-- An accepted `screenPhase` keeps the driver name it was entered
with. -/
theorem screenPhase_accepted (swrast : Bool) (o : Oracle) (nm : String)
    (s3 : PState) (h : (screenPhase swrast o nm s3).2 = true) :
    (screenPhase swrast o nm s3).1.dpy.driver_name = s3.dpy.driver_name := by
  unfold screenPhase at h ⊢
  by_cases hc : o.createScreenOk
  · by_cases hg : o.graphics
    · simp [hc, hg]
    · simp [hc, hg, retryRollback] at h
  · simp [hc, retryRollback] at h

/-- `afterBind` keeps the device identity bound at entry, accepted or
rejected. -/
theorem afterBind_dispDevice (swrast : Bool) (o : Oracle) (s2 : PState) :
    (afterBind swrast o s2).1.dispDevice = s2.dispDevice := by
  unfold afterBind
  by_cases hs : swrast
  · by_cases hv : o.driverForFd = some "vgem" ∨ o.driverForFd = some "virtio_gpu"
    · cases hsd : o.strdupOk
      · simp [hs, hv, hsd, retryRollback]
      · simpa [hs, hv, hsd] using
          screenPhase_dispDevice swrast o "kms_swrast" _
    · rcases hdn : s2.dpy.driver_name with _ | nm
      · simp [hs, hv, hdn, retryRollback]
      · simpa [hs, hv, hdn] using screenPhase_dispDevice swrast o nm s2
  · rcases hdrv : o.driverForFd with _ | nm
    · simp [hs, hdrv, retryRollback]
    · simpa [hs, hdrv] using screenPhase_dispDevice swrast o nm _

/-- Reduction of `probeStep` for a candidate that passes the structural
checks, opens its node, and survives the wayland block: the iteration is
`afterBind` on the opened state with the device identity bound. -/
theorem probeStep_opened (hasDevAttrib swrast : Bool) (c : Candidate)
    (o : Oracle) (s : PState) (fd : Int)
    (hdrm : c.supportsDrm = true)
    (hpin : ¬(hasDevAttrib = true ∧ s.dispDevice ≠ some c.id))
    (hnode : (if swrast then c.hasPrimary else c.hasRender) = true)
    (hopen : o.openFd = some fd)
    (hwl : o.preferredFd = none ∨ (∃ dn, o.deviceName = some dn)) :
    probeStep hasDevAttrib swrast c o s =
      afterBind swrast o
        { (waylandStep o
            { s with
              dpy := { s.dpy with fd_render_gpu := fd },
              openFds := fd :: s.openFds,
              openCalls := s.openCalls + 1 }).1 with
          dispDevice := some c.id } := by
  have hwOk : ∀ s1, (waylandStep o s1).2 = true :=
    fun s1 => waylandStep_ok o s1 hwl
  unfold probeStep
  simp [hdrm, hpin, hnode, hopen, hwOk]

/-- Under `swrast`, a resolved driver of "vgem" or "virtio_gpu" whose
`strdup("kms_swrast")` succeeds is overridden to "kms_swrast": screen
creation is attempted with exactly that name, and on acceptance the
display keeps it. -/
theorem afterBind_swrast_override (o : Oracle) (s2 : PState)
    (hv : o.driverForFd = some "vgem" ∨ o.driverForFd = some "virtio_gpu")
    (hsd : o.strdupOk = true) :
    (afterBind true o s2).1.screenCalls = "kms_swrast" :: s2.screenCalls ∧
    ((afterBind true o s2).2 = true →
      (afterBind true o s2).1.dpy.driver_name = some "kms_swrast") := by
  unfold afterBind
  simp only [ite_true, if_pos hv, hsd]
  constructor
  · rw [screenPhase_screenCalls]
  · intro h
    rw [screenPhase_accepted _ _ _ _ h]

/-- Under `swrast`, any other resolved driver leaves the display's driver
name NULL, so the candidate goes straight to rollback. -/
theorem afterBind_swrast_no_override (o : Oracle) (s2 : PState)
    (hv : ¬(o.driverForFd = some "vgem" ∨ o.driverForFd = some "virtio_gpu"))
    (hdn : s2.dpy.driver_name = none) :
    afterBind true o s2 = (retryRollback s2, false) := by
  unfold afterBind
  simp [hv, hdn]

/-- C8: once a candidate passes the structural checks and its node opens
(and the preferred-fd device-name resolution does not bail out first),
`disp->Device` is assigned to that candidate before driver load / screen
creation is attempted, and it stays assigned after the iteration whether
the candidate is accepted or rejected — per-candidate rollback never
unclaims the device identity. -/
theorem C8_device_identity_claimed (hasDevAttrib swrast : Bool)
    (c : Candidate) (o : Oracle) (s : PState) (fd : Int)
    (hdrm : c.supportsDrm = true)
    (hpin : hasDevAttrib = true → s.dispDevice = some c.id)
    (hnode : (if swrast then c.hasPrimary else c.hasRender) = true)
    (hopen : o.openFd = some fd)
    (hwl : o.preferredFd = none ∨ (∃ dn, o.deviceName = some dn)) :
    (probeStep hasDevAttrib swrast c o s).1.dispDevice = some c.id := by
  have hp : ¬(hasDevAttrib = true ∧ s.dispDevice ≠ some c.id) :=
    fun hh => hh.2 (hpin hh.1)
  have hwOk : ∀ s1, (waylandStep o s1).2 = true :=
    fun s1 => waylandStep_ok o s1 hwl
  unfold probeStep
  simp [hdrm, hp, hnode, hopen, hwOk, afterBind_dispDevice]

/-- C8 witness: a render-node candidate with a working driver stack; the
device identity ends up bound to it. -/
theorem C8_witness :
    (probeStep false false
        ⟨2, true, true, true⟩
        ⟨some 5, none, none, false, some "i915", true, false, true, true⟩
        ⟨⟨-1, -1, none, none, false, false, .noExts, none, none, false⟩,
          none, [], 0, []⟩).1.dispDevice = some 2 :=
  C8_device_identity_claimed false false
    ⟨2, true, true, true⟩
    ⟨some 5, none, none, false, some "i915", true, false, true, true⟩
    ⟨⟨-1, -1, none, none, false, false, .noExts, none, none, false⟩,
      none, [], 0, []⟩ 5
    rfl (by simp) rfl rfl (Or.inl rfl)

/-- Any rejected run of the post-binding pipeline ends in the rollback:
driver name freed, both fd fields reset to `-1`, and the open-fd set as
computed by the rollback from the fds at entry (the pipeline never
touches the fd fields or the open set before rolling back). -/
theorem afterBind_rejected (swrast : Bool) (o : Oracle) (s2 : PState)
    (h : (afterBind swrast o s2).2 = false) :
    (afterBind swrast o s2).1.dpy.driver_name = none ∧
    (afterBind swrast o s2).1.dpy.fd_render_gpu = -1 ∧
    (afterBind swrast o s2).1.dpy.fd_display_gpu = -1 ∧
    (afterBind swrast o s2).1.openFds = rollFds s2 := by
  unfold afterBind at h ⊢
  simp only [] at h ⊢
  cases swrast with
  | true =>
    by_cases hv : o.driverForFd = some "vgem" ∨
        o.driverForFd = some "virtio_gpu"
    · rw [if_pos rfl, if_pos hv] at h ⊢
      cases hsd : o.strdupOk
      · exact ⟨rfl, rfl, rfl, rfl⟩
      · rw [hsd] at h
        obtain ⟨h1, h2, h3, h4⟩ := screenPhase_rejected true o "kms_swrast"
          { s2 with dpy := { s2.dpy with
              driver_name := some "kms_swrast" } } h
        exact ⟨h1, h2, h3, h4⟩
    · rw [if_pos rfl, if_neg hv] at h ⊢
      rcases hdn : s2.dpy.driver_name with _ | nm
      · exact ⟨rfl, rfl, rfl, rfl⟩
      · rw [hdn] at h
        exact screenPhase_rejected true o nm s2 h
  | false =>
    rw [if_neg Bool.false_ne_true] at h ⊢
    rcases hdrv : o.driverForFd with _ | nm
    · exact ⟨rfl, rfl, rfl, rfl⟩
    · rw [hdrv] at h
      obtain ⟨h1, h2, h3, h4⟩ := screenPhase_rejected false o nm
        { s2 with dpy := { s2.dpy with driver_name := some nm } } h
      exact ⟨h1, h2, h3, h4⟩

/-- C3: a candidate rejected anywhere inside the probe loop leaves, by
the time iteration moves on, the driver name freed (NULL), both fd
fields reset to `-1`, and the multiset of open device-node fds exactly
as it was before the candidate was examined — no handle opened for a
rejected candidate remains open.  (The entry state satisfies the loop
invariant: fds unopened and no driver name, as on loop entry and as
re-established by every previous rollback.) -/
theorem C3_rejected_candidate_rollback (hasDevAttrib swrast : Bool)
    (c : Candidate) (o : Oracle) (s : PState)
    (hwf : o.wf = true)
    (hfr : s.dpy.fd_render_gpu = -1) (hfd : s.dpy.fd_display_gpu = -1)
    (hdn : s.dpy.driver_name = none)
    (hrej : (probeStep hasDevAttrib swrast c o s).2 = false) :
    (probeStep hasDevAttrib swrast c o s).1.dpy.driver_name = none ∧
    (probeStep hasDevAttrib swrast c o s).1.dpy.fd_render_gpu = -1 ∧
    (probeStep hasDevAttrib swrast c o s).1.dpy.fd_display_gpu = -1 ∧
    (probeStep hasDevAttrib swrast c o s).1.openFds = s.openFds := by
  by_cases hskip : c.supportsDrm = false ∨
      (hasDevAttrib = true ∧ s.dispDevice ≠ some c.id) ∨
      (if swrast then c.hasPrimary else c.hasRender) = false
  · rw [probeStep_structural_skip hasDevAttrib swrast c o s hskip]
    exact ⟨hdn, hfr, hfd, rfl⟩
  · push_neg at hskip
    obtain ⟨h1p, h2p, h3p⟩ := hskip
    have h1 : c.supportsDrm = true := by
      cases hb : c.supportsDrm
      · exact absurd hb h1p
      · rfl
    have h3 : (if swrast then c.hasPrimary else c.hasRender) = true := by
      cases hb : (if swrast then c.hasPrimary else c.hasRender)
      · exact absurd hb h3p
      · rfl
    have h2 : ¬(hasDevAttrib = true ∧ s.dispDevice ≠ some c.id) :=
      fun hh => hh.2 (h2p hh.1)
    rcases hopen : o.openFd with _ | fd
    · have hred : probeStep hasDevAttrib swrast c o s =
          ({ s with openCalls := s.openCalls + 1 }, false) := by
        unfold probeStep
        simp [h1, h2, h3, hopen]
      rw [hred]
      exact ⟨hdn, hfr, hfd, rfl⟩
    · rcases hpref : o.preferredFd with _ | f
      · have hred := probeStep_opened hasDevAttrib swrast c o s fd h1 h2 h3
          hopen (Or.inl hpref)
        rw [hred] at hrej ⊢
        obtain ⟨g1, g2, g3, g4⟩ := afterBind_rejected swrast o _ hrej
        refine ⟨g1, g2, g3, ?_⟩
        rw [g4]
        have w1 : ∀ s1, (waylandStep o s1).1.dpy.fd_render_gpu =
            s1.dpy.fd_render_gpu :=
          fun s1 => (waylandStep_fds_none o s1 hpref).1
        have w2 : ∀ s1, (waylandStep o s1).1.dpy.fd_display_gpu =
            s1.dpy.fd_render_gpu :=
          fun s1 => (waylandStep_fds_none o s1 hpref).2.1
        have w3 : ∀ s1, (waylandStep o s1).1.openFds = s1.openFds :=
          fun s1 => (waylandStep_fds_none o s1 hpref).2.2
        simp [rollFds, w1, w2, w3, List.erase_cons_head]
      · have hfneq : f ≠ fd := by
          simp [Oracle.wf, hopen, hpref] at hwf
          exact hwf
        have hfd2 : ¬ (fd = f) := fun hh => hfneq hh.symm
        rcases hdnm : o.deviceName with _ | dn
        · have hred : probeStep hasDevAttrib swrast c o s =
              (retryRollback
                { s with
                  dpy := { s.dpy with
                           fd_render_gpu := f
                           fd_display_gpu := fd
                           device_name := none },
                  openFds := f :: fd :: s.openFds,
                  openCalls := s.openCalls + 1 }, false) := by
            unfold probeStep waylandStep
            simp [h1, h2, h3, hopen, hpref, hdnm, hfneq]
          rw [hred]
          refine ⟨by simp [retryRollback], by simp [retryRollback],
            by simp [retryRollback], ?_⟩
          simp only [retryRollback, rollFds]
          simp [hfd2]
          rw [List.erase_cons_tail (by simpa using hfneq),
            List.erase_cons_head, List.erase_cons_head]
        · have hred := probeStep_opened hasDevAttrib swrast c o s fd h1 h2 h3
            hopen (Or.inr ⟨dn, hdnm⟩)
          rw [hred] at hrej ⊢
          obtain ⟨g1, g2, g3, g4⟩ := afterBind_rejected swrast o _ hrej
          refine ⟨g1, g2, g3, ?_⟩
          rw [g4]
          have w1 : ∀ s1, (waylandStep o s1).1.dpy.fd_render_gpu = f :=
            fun s1 => (waylandStep_fds_some o s1 f hpref).1
          have w2 : ∀ s1, (waylandStep o s1).1.dpy.fd_display_gpu =
              s1.dpy.fd_render_gpu :=
            fun s1 => (waylandStep_fds_some o s1 f hpref).2.1
          have w3 : ∀ s1, (waylandStep o s1).1.openFds = f :: s1.openFds :=
            fun s1 => (waylandStep_fds_some o s1 f hpref).2.2
          simp only [rollFds, w1, w2, w3]
          simp [hfd2]
          rw [List.erase_cons_tail (by simpa using hfneq),
            List.erase_cons_head, List.erase_cons_head]

/-- C3 witness: a candidate whose screen creation fails is rolled back:
the opened fd 7 is closed, both fd fields are `-1`, no driver name. -/
theorem C3_witness :
    Oracle.wf ⟨some 7, none, none, false, some "i915", true, false, false, true⟩
      = true ∧
    ((probeStep false false ⟨3, true, true, true⟩
        ⟨some 7, none, none, false, some "i915", true, false, false, true⟩
        ⟨⟨-1, -1, none, none, false, false, .noExts, none, none, false⟩,
          none, [], 0, []⟩).1.dpy.driver_name = none ∧
     (probeStep false false ⟨3, true, true, true⟩
        ⟨some 7, none, none, false, some "i915", true, false, false, true⟩
        ⟨⟨-1, -1, none, none, false, false, .noExts, none, none, false⟩,
          none, [], 0, []⟩).1.dpy.fd_render_gpu = -1 ∧
     (probeStep false false ⟨3, true, true, true⟩
        ⟨some 7, none, none, false, some "i915", true, false, false, true⟩
        ⟨⟨-1, -1, none, none, false, false, .noExts, none, none, false⟩,
          none, [], 0, []⟩).1.dpy.fd_display_gpu = -1 ∧
     (probeStep false false ⟨3, true, true, true⟩
        ⟨some 7, none, none, false, some "i915", true, false, false, true⟩
        ⟨⟨-1, -1, none, none, false, false, .noExts, none, none, false⟩,
          none, [], 0, []⟩).1.openFds = []) :=
  ⟨rfl, C3_rejected_candidate_rollback false false ⟨3, true, true, true⟩
    ⟨some 7, none, none, false, some "i915", true, false, false, true⟩
    ⟨⟨-1, -1, none, none, false, false, .noExts, none, none, false⟩,
      none, [], 0, []⟩ rfl rfl rfl rfl (by decide)⟩

/-- C9: in a force-software probe (`swrast = true`), a candidate whose
resolved driver is "vgem" or "virtio_gpu" (and whose
`strdup("kms_swrast")` succeeds) has its driver name overridden to
exactly "kms_swrast" and screen creation is attempted with that name
(and an accepted candidate keeps it); any other resolved driver name is
not kept — the candidate is rejected with no screen-creation attempt and
the display's driver name still NULL. -/
theorem C9_force_software_kms_swrast (hasDevAttrib : Bool) (c : Candidate)
    (o : Oracle) (s : PState) (fd : Int)
    (hdrm : c.supportsDrm = true)
    (hpin : hasDevAttrib = true → s.dispDevice = some c.id)
    (hnode : c.hasPrimary = true)
    (hopen : o.openFd = some fd)
    (hwl : o.preferredFd = none ∨ (∃ dn, o.deviceName = some dn))
    (hsd : o.strdupOk = true)
    (hdn : s.dpy.driver_name = none) :
    ((o.driverForFd = some "vgem" ∨ o.driverForFd = some "virtio_gpu") →
      (probeStep hasDevAttrib true c o s).1.screenCalls =
        "kms_swrast" :: s.screenCalls ∧
      ((probeStep hasDevAttrib true c o s).2 = true →
        (probeStep hasDevAttrib true c o s).1.dpy.driver_name =
          some "kms_swrast")) ∧
    (¬(o.driverForFd = some "vgem" ∨ o.driverForFd = some "virtio_gpu") →
      (probeStep hasDevAttrib true c o s).2 = false ∧
      (probeStep hasDevAttrib true c o s).1.screenCalls = s.screenCalls ∧
      (probeStep hasDevAttrib true c o s).1.dpy.driver_name = none) := by
  have hp : ¬(hasDevAttrib = true ∧ s.dispDevice ≠ some c.id) :=
    fun hh => hh.2 (hpin hh.1)
  have hred := probeStep_opened hasDevAttrib true c o s fd hdrm hp
    (by simpa using hnode) hopen hwl
  rw [hred]
  have hgn : ∀ s1, (waylandStep o s1).1.dpy.driver_name = s1.dpy.driver_name :=
    fun s1 => (waylandStep_ghost o s1).2.1
  have hgs : ∀ s1, (waylandStep o s1).1.screenCalls = s1.screenCalls :=
    fun s1 => (waylandStep_ghost o s1).2.2.1
  constructor
  · intro hv
    refine ⟨?_, ?_⟩
    · rw [(afterBind_swrast_override o _ hv hsd).1]
      simp [hgs]
    · intro hacc
      exact (afterBind_swrast_override o _ hv hsd).2 hacc
  · intro hv
    rw [afterBind_swrast_no_override o _ hv (by simp [hgn, hdn])]
    refine ⟨rfl, ?_, ?_⟩
    · simp [retryRollback, hgs]
    · simp [retryRollback]

/-- C9 witness: a primary-node candidate resolving to "virtio_gpu" under
force-software ends with a "kms_swrast" screen-creation attempt. -/
theorem C9_witness :
    (probeStep false true ⟨1, true, true, false⟩
        ⟨some 5, none, none, false, some "virtio_gpu", true, false, true, true⟩
        ⟨⟨-1, -1, none, none, false, false, .noExts, none, none, false⟩,
          none, [], 0, []⟩).1.screenCalls = ["kms_swrast"] :=
  ((C9_force_software_kms_swrast false ⟨1, true, true, false⟩
      ⟨some 5, none, none, false, some "virtio_gpu", true, false, true, true⟩
      ⟨⟨-1, -1, none, none, false, false, .noExts, none, none, false⟩,
        none, [], 0, []⟩ 5
      rfl (by simp) rfl rfl (Or.inl rfl) rfl rfl).1 (Or.inr rfl)).1

/-- C4: the Driver Binding Table (vtbl) is assigned last during display
initialization: if any fallible step fails — either probe, and with them
everything up to and including config setup — the function returns with
the vtbl still unassigned (and no vtbl-store event at all); on success
the vtbl store is the final event, occurring exactly once, strictly after
config setup. -/
theorem C4_vtbl_assigned_last (apple metal hasDevAttrib forceSoftware
    zink : Bool) (cands : List (Candidate × Oracle)) (swo : SwOracle)
    (devName : Option String) (s : PState) :
    ((dri2_initialize_surfaceless apple metal hasDevAttrib forceSoftware
        zink cands swo devName s).success = false →
      (dri2_initialize_surfaceless apple metal hasDevAttrib forceSoftware
        zink cands swo devName s).vtbl = none ∧
      InitEvent.assignVtbl ∉
        (dri2_initialize_surfaceless apple metal hasDevAttrib forceSoftware
          zink cands swo devName s).trace) ∧
    ((dri2_initialize_surfaceless apple metal hasDevAttrib forceSoftware
        zink cands swo devName s).success = true →
      (dri2_initialize_surfaceless apple metal hasDevAttrib forceSoftware
        zink cands swo devName s).vtbl.isSome = true ∧
      ∃ t, (dri2_initialize_surfaceless apple metal hasDevAttrib
          forceSoftware zink cands swo devName s).trace =
          t ++ [InitEvent.assignVtbl] ∧
        InitEvent.assignVtbl ∉ t ∧ InitEvent.addConfigs ∈ t) := by
  unfold dri2_initialize_surfaceless
  simp only []
  cases hb : (surfaceless_probe_device hasDevAttrib forceSoftware zink
      cands s).2
  · by_cases hfb : (forceSoftware = true ∨ apple = true)
    · cases hsw : (surfaceless_probe_device_sw apple metal hasDevAttrib zink
          swo (surfaceless_probe_device hasDevAttrib forceSoftware zink
            cands s).1).2
      · refine ⟨fun _ => ⟨?_, ?_⟩, fun hc => ?_⟩
        · simp [hb, hfb, hsw]
        · simp [hb, hfb, hsw]
        · revert hc
          simp [hb, hfb, hsw]
      · refine ⟨fun hc => ?_, fun _ => ⟨?_, ⟨[InitEvent.probeHw,
          InitEvent.probeSw, InitEvent.setupScreen, InitEvent.addConfigs],
          ?_, by decide, by decide⟩⟩⟩
        · revert hc
          simp [hb, hfb, hsw]
        · simp [hb, hfb, hsw]
        · simp [hb, hfb, hsw]
    · refine ⟨fun _ => ⟨?_, ?_⟩, fun hc => ?_⟩
      · simp [hb, hfb]
      · simp [hb, hfb]
      · revert hc
        simp [hb, hfb]
  · refine ⟨fun hc => ?_, fun _ => ⟨?_, ⟨[InitEvent.probeHw,
      InitEvent.setupScreen, InitEvent.addConfigs],
      ?_, by decide, by decide⟩⟩⟩
    · revert hc
      simp [hb]
    · simp [hb]
    · simp [hb]

/-- C4 witness: an empty device list with ForceSoftware and a working
software stack initializes successfully; the trace ends with the single
vtbl store, after config setup. -/
theorem C4_witness :
    (dri2_initialize_surfaceless false false false true false []
        ⟨0, true, false, true⟩ none
        ⟨⟨-1, -1, none, none, false, false, .noExts, none, none, false⟩,
          none, [], 0, []⟩).success = true ∧
    ((dri2_initialize_surfaceless false false false true false []
        ⟨0, true, false, true⟩ none
        ⟨⟨-1, -1, none, none, false, false, .noExts, none, none, false⟩,
          none, [], 0, []⟩).vtbl.isSome = true ∧
     ∃ t, (dri2_initialize_surfaceless false false false true false []
          ⟨0, true, false, true⟩ none
          ⟨⟨-1, -1, none, none, false, false, .noExts, none, none, false⟩,
            none, [], 0, []⟩).trace = t ++ [InitEvent.assignVtbl] ∧
       InitEvent.assignVtbl ∉ t ∧ InitEvent.addConfigs ∈ t) :=
  ⟨by decide,
    (C4_vtbl_assigned_last false false false true false []
      ⟨0, true, false, true⟩ none
      ⟨⟨-1, -1, none, none, false, false, .noExts, none, none, false⟩,
        none, [], 0, []⟩).2 (by decide)⟩

end Surfaceless
